import Mathlib

/-!
# Verification of the QuizMaker session-backed authentication layer

Shallow embedding of the session store (`src/lib/auth/session.ts`), the
login route (`src/app/api/auth/login/route.ts`), the logout / logout-all
route handlers, and the request middleware (`src/middleware.ts`).

The SQLite/D1 `sessions` table is modelled as a `List SessionRow`; each SQL
statement of the source becomes a pure function on that list.  Timestamps
are `Nat` (milliseconds since epoch); `CURRENT_TIMESTAMP` / `new Date()`
become an explicit `now : Nat` parameter.  The `is_active` column is an
INTEGER (0 = revoked, 1 = active), kept as `Nat` exactly as the column and
the TS `isActive: number` field are.
-/

namespace QuizAuth

/-- A row of the `sessions` table (migration `0001_create_auth_tables.sql`,
TS interface `Session` in `src/lib/auth/session.ts`). -/
structure SessionRow where
  id : String
  userId : String
  tokenHash : String
  ipAddress : Option String
  userAgent : Option String
  createdAt : Nat
  expiresAt : Nat
  lastActiveAt : Nat
  isActive : Nat
  deriving Repr, DecidableEq

/-- `getSession`: `SELECT * FROM sessions WHERE id = ? AND is_active = 1`,
first matching row (`executeQueryFirst`), `null` mapped to `none`. -/
def getSession (db : List SessionRow) (sessionId : String) : Option SessionRow :=
  db.find? (fun r => r.id == sessionId && r.isActive == 1)

/-- `revokeSession`: `UPDATE sessions SET is_active = 0 WHERE id = ?`. -/
def revokeSession (db : List SessionRow) (sessionId : String) : List SessionRow :=
  db.map (fun r => if r.id = sessionId then { r with isActive := 0 } else r)

/-- The success-path mutation of `validateSession`:
`UPDATE sessions SET last_active_at = CURRENT_TIMESTAMP WHERE id = ?`. -/
def touchSession (now : Nat) (db : List SessionRow) (sessionId : String) : List SessionRow :=
  db.map (fun r => if r.id = sessionId then { r with lastActiveAt := now } else r)

/-- `validateSession`: fetch via `getSession`; absent → `false`; present and
`now > expiresAt` → auto-revoke (lazy expiry) and `false`; otherwise touch
`last_active_at` and return `true`.  Returns the result together with the
table state after the call. -/
def validateSession (now : Nat) (db : List SessionRow) (sessionId : String) :
    Bool × List SessionRow :=
  match getSession db sessionId with
  | none => (false, db)
  | some session =>
    if session.expiresAt < now then
      (false, revokeSession db sessionId)
    else
      (true, touchSession now db sessionId)

/-- `revokeAllUserSessions`: `UPDATE sessions SET is_active = 0 WHERE user_id = ?`. -/
def revokeAllUserSessions (db : List SessionRow) (userId : String) : List SessionRow :=
  db.map (fun r => if r.userId = userId then { r with isActive := 0 } else r)

/-- `getUserSessions`: `SELECT * FROM sessions WHERE user_id = ? AND
is_active = 1 ORDER BY last_active_at DESC`.  The `WHERE` clause filters on
`user_id` and `is_active` only — there is no `expires_at` condition in the
source query. -/
def getUserSessions (db : List SessionRow) (userId : String) : List SessionRow :=
  (db.filter (fun r => r.userId == userId && r.isActive == 1)).mergeSort
    (fun a b => b.lastActiveAt ≤ a.lastActiveAt)

/-- `cleanupExpiredSessions`: runs
`UPDATE sessions SET is_active = 0 WHERE expires_at < CURRENT_TIMESTAMP AND is_active = 1`
and then returns the literal `0` ("D1 doesn't return affected rows count
easily").  Result is the returned count paired with the table after the
bulk update. -/
def cleanupExpiredSessions (now : Nat) (db : List SessionRow) : Nat × List SessionRow :=
  (0, db.map (fun r =>
    if r.expiresAt < now ∧ r.isActive = 1 then { r with isActive := 0 } else r))

/-- 7 days in milliseconds, the session lifetime used by `createSession`
(`7 * 24 * 60 * 60 * 1000`). -/
def sevenDaysMs : Nat := 7 * 24 * 60 * 60 * 1000

/-- The `INSERT INTO sessions ...` statement.  The table declares
`id TEXT PRIMARY KEY` and `token_hash TEXT NOT NULL UNIQUE`, so the insert
errors (modelled as `none`) when either value already occurs. -/
def insertSession (db : List SessionRow) (row : SessionRow) : Option (List SessionRow) :=
  if db.any (fun r => r.id == row.id || r.tokenHash == row.tokenHash) then none
  else some (db ++ [row])

/-- `createSession`: inserts a fresh row with `expires_at = now + 7 days`,
`created_at = last_active_at = now` and `is_active = 1` (the column default).
The source generates `sessionId` by `crypto.randomUUID()` and `tokenHash` by
SHA-256 of the raw token; both are nondeterministic inputs here, passed as
parameters. -/
def createSession (now : Nat) (db : List SessionRow)
    (sessionId userId tokenHash : String) (ipAddress userAgent : Option String) :
    Option (List SessionRow) :=
  insertSession db
    { id := sessionId, userId := userId, tokenHash := tokenHash,
      ipAddress := ipAddress, userAgent := userAgent,
      createdAt := now, expiresAt := now + sevenDaysMs,
      lastActiveAt := now, isActive := 1 }

/-- A row of the `users` table as selected by the login route
(`SELECT id, email, password_hash, full_name, is_active FROM users`),
plus `last_login_at`, which the route updates. -/
structure UserRow where
  id : String
  email : String
  password_hash : String
  full_name : String
  is_active : Nat
  last_login_at : Option Nat
  deriving Repr, DecidableEq

/-- An HTTP response as produced by `NextResponse.json`: status code and
serialized JSON body. -/
structure ApiResponse where
  status : Nat
  body : String
  deriving Repr, DecidableEq

/-- Body of `NextResponse.json({ error: msg })`. -/
def jsonError (msg : String) : String :=
  "\x7b\"error\":\"" ++ msg ++ "\"\x7d"

/-- Body of the login route's success response
`NextResponse.json({ success: true, user: { id, email, fullName } })`. -/
def loginSuccessBody (u : UserRow) : String :=
  "\x7b\"success\":true,\"user\":\x7b\"id\":\"" ++ u.id ++ "\",\"email\":\"" ++ u.email ++
    "\",\"fullName\":\"" ++ u.full_name ++ "\"\x7d\x7d"

/-- `SELECT ... FROM users WHERE email = ?` via `executeQueryFirst`:
first row whose `email` equals the argument. -/
def findUserByEmail (users : List UserRow) (email : String) : Option UserRow :=
  users.find? (fun u => u.email == email)

/-- `UPDATE users SET last_login_at = CURRENT_TIMESTAMP WHERE id = ?`. -/
def touchLastLogin (now : Nat) (users : List UserRow) (id : String) : List UserRow :=
  users.map (fun u => if u.id = id then { u with last_login_at := some now } else u)

/-- The login route `POST` handler (`src/app/api/auth/login/route.ts`).
`verifyPassword` (bcrypt) is an oracle parameter; `freshSessionId` and
`freshTokenHash` stand for the `crypto.randomUUID()` values the handler
generates; `ipAddress` / `userAgent` stand for the request headers.
Control flow of the source: empty email or password → 400; no user row for
the lowercased email → 401 generic error; `is_active === 0` → 403;
password mismatch → 401 generic error; otherwise update `last_login_at`,
create a session and answer 200 (a session-insert failure is caught by the
route's `try/catch` and becomes 500).  Returns the response together with
the two table states after the call. -/
def loginPOST (verifyPassword : String → String → Bool) (now : Nat)
    (freshSessionId freshTokenHash : String) (ipAddress userAgent : Option String)
    (users : List UserRow) (sessions : List SessionRow)
    (email password : String) :
    ApiResponse × List UserRow × List SessionRow :=
  if email = "" ∨ password = "" then
    (⟨400, jsonError "Email and password are required"⟩, users, sessions)
  else
    match findUserByEmail users email.toLower with
    | none => (⟨401, jsonError "Invalid email or password"⟩, users, sessions)
    | some user =>
      if user.is_active = 0 then
        (⟨403, jsonError "Account is inactive"⟩, users, sessions)
      else if verifyPassword password user.password_hash = false then
        (⟨401, jsonError "Invalid email or password"⟩, users, sessions)
      else
        let users1 := touchLastLogin now users user.id
        match createSession now sessions freshSessionId user.id freshTokenHash
            ipAddress userAgent with
        | none => (⟨500, jsonError "Internal server error"⟩, users1, sessions)
        | some sessions1 => (⟨200, loginSuccessBody user⟩, users1, sessions1)

/-- The claims carried by the JWT (`src/lib/auth/jwt.ts`). -/
structure JWTPayload where
  sessionId : String
  userId : String
  email : String
  deriving Repr, DecidableEq

/-- A response of the logout / logout-all handlers: status, body, and
whether the handler called `response.cookies.delete('auth-token')`. -/
structure HandlerResponse where
  status : Nat
  body : String
  clearCookie : Bool
  deriving Repr, DecidableEq

/-- Body of `NextResponse.json({ success: true, message: msg })`. -/
def jsonSuccessMsg (msg : String) : String :=
  "\x7b\"success\":true,\"message\":\"" ++ msg ++ "\"\x7d"

/-- The logout-all route `POST` handler.  `verifyToken` is the JWT oracle
(`none` models a thrown verification error).  Source control flow: no
cookie → 401 `Not authenticated`; `verifyToken` throwing is caught by the
handler's single outer `try/catch` → 500 `Internal server error`; a valid
token → `revokeAllUserSessions` for the token's `userId`, 200 success
response with the auth cookie cleared. -/
def logoutAllPOST (verifyToken : String → Option JWTPayload)
    (token : Option String) (db : List SessionRow) :
    HandlerResponse × List SessionRow :=
  match token with
  | none => (⟨401, jsonError "Not authenticated", false⟩, db)
  | some t =>
    match verifyToken t with
    | none => (⟨500, jsonError "Internal server error", false⟩, db)
    | some payload =>
      (⟨200, jsonSuccessMsg "Logged out from all devices successfully", true⟩,
        revokeAllUserSessions db payload.userId)

/-- The logout route `POST` handler.  Source control flow: if a cookie is
present and verifies, revoke the referenced session; a verification error
is swallowed by the inner `try/catch`; in every case the handler answers
200 success and clears the auth cookie. -/
def logoutPOST (verifyToken : String → Option JWTPayload)
    (token : Option String) (db : List SessionRow) :
    HandlerResponse × List SessionRow :=
  let db1 :=
    match token with
    | none => db
    | some t =>
      match verifyToken t with
      | none => db
      | some payload => revokeSession db payload.sessionId
  (⟨200, jsonSuccessMsg "Logged out successfully", true⟩, db1)

/-- `protectedPaths` of `src/middleware.ts`. -/
def protectedPaths : List String := ["/dashboard", "/mcqs"]

/-- `authPaths` of `src/middleware.ts`. -/
def authPaths : List String := ["/login", "/signup"]

/-- The value a middleware invocation returns: either pass the request
through (`NextResponse.next()`) or redirect, in both cases recording
whether `auth-token` was deleted on the response; a redirect records the
target path and the optional `redirect` search parameter. -/
inductive MwResponse where
  | next (deleteCookie : Bool)
  | redirect (location : String) (redirectParam : Option String) (deleteCookie : Bool)
  deriving Repr, DecidableEq

/-- The `middleware` function of `src/middleware.ts`.  A path is protected
(resp. auth-only) when it starts with one of `protectedPaths` (resp.
`authPaths`).  Protected: no token → redirect to `/login` with
`?redirect=pathname`; token verifying → pass; token failing → redirect to
`/login` with no parameter, deleting the cookie.  Auth-only with a token:
verifying → redirect to `/dashboard`; failing → pass, deleting the cookie.
Everything else passes through. -/
def middleware (verifyToken : String → Option JWTPayload)
    (pathname : String) (token : Option String) : MwResponse :=
  let isProtectedPath := protectedPaths.any (fun p => pathname.startsWith p)
  let isAuthPath := authPaths.any (fun p => pathname.startsWith p)
  if isProtectedPath then
    match token with
    | none => .redirect "/login" (some pathname) false
    | some t =>
      match verifyToken t with
      | some _ => .next false
      | none => .redirect "/login" none true
  else if isAuthPath then
    match token with
    | none => .next false
    | some t =>
      match verifyToken t with
      | some _ => .redirect "/dashboard" none false
      | none => .next true
  else
    .next false

/-- One invocation of a session-store operation, for stating invariants
over arbitrary interleavings.  Parameters that the source generates or
receives (fresh ids, hashes, metadata) are carried by the constructor. -/
inductive Op where
  | create (sessionId userId tokenHash : String) (ipAddress userAgent : Option String)
  | get (sessionId : String)
  | validate (sessionId : String)
  | revoke (sessionId : String)
  | revokeAll (userId : String)
  | listForUser (userId : String)
  | cleanup
  deriving Repr

/-- The `sessions`-table state after running one operation at time `now`.
Reads (`get`, `listForUser`) leave the table unchanged; a failed insert
(duplicate id or token hash) raises in the source and leaves the table
unchanged. -/
def applyOp (now : Nat) (db : List SessionRow) : Op → List SessionRow
  | .create sid uid th ip ua => (createSession now db sid uid th ip ua).getD db
  | .get _ => db
  | .validate sid => (validateSession now db sid).2
  | .revoke sid => revokeSession db sid
  | .revokeAll uid => revokeAllUserSessions db uid
  | .listForUser _ => db
  | .cleanup => (cleanupExpiredSessions now db).2

/-- The table state after a sequence of timestamped operations. -/
def applyOps (db : List SessionRow) : List (Nat × Op) → List SessionRow
  | [] => db
  | (t, op) :: rest => applyOps (applyOp t db op) rest

/-- The session id has a row that is already dead at time `now`: flagged
inactive, or past its expiry. -/
def sessionDead (now : Nat) (db : List SessionRow) (sessionId : String) : Prop :=
  ∃ r ∈ db, r.id = sessionId ∧ (r.isActive = 0 ∨ r.expiresAt < now)

/-! ## Helper lemmas and example states -/

/-- The PRIMARY KEY invariant of the `sessions` table: ids are pairwise
distinct. -/
def NodupIds (db : List SessionRow) : Prop :=
  (db.map (fun r => r.id)).Nodup

theorem getSession_eq_none (db : List SessionRow) (sid : String)
    (h : ∀ r ∈ db, r.id = sid → r.isActive ≠ 1) :
    getSession db sid = none := by
  simp only [getSession, List.find?_eq_none, Bool.and_eq_true, beq_iff_eq, not_and]
  exact h

theorem getSession_eq_some_unique (db : List SessionRow) (sid : String) (r : SessionRow)
    (hnodup : NodupIds db) (hr : r ∈ db) (hid : r.id = sid) (hact : r.isActive = 1) :
    getSession db sid = some r := by
  have hsome : (db.find? (fun s => s.id == sid && s.isActive == 1)).isSome := by
    rw [List.find?_isSome]
    exact ⟨r, hr, by simp [hid, hact]⟩
  obtain ⟨s, hs⟩ := Option.isSome_iff_exists.mp hsome
  have hmem := List.mem_of_find?_eq_some hs
  have hps := List.find?_some hs
  simp only [Bool.and_eq_true, beq_iff_eq] at hps
  have hsr : s = r := List.inj_on_of_nodup_map hnodup hmem hr (by rw [hps.1, hid])
  rw [getSession, hs, hsr]

theorem mem_revokeSession_eq_zero (db : List SessionRow) (sid : String) (r : SessionRow)
    (hr : r ∈ revokeSession db sid) (hid : r.id = sid) : r.isActive = 0 := by
  simp only [revokeSession, List.mem_map] at hr
  obtain ⟨s, _, rfl⟩ := hr
  by_cases h : s.id = sid
  · simp [h]
  · rw [if_neg h] at hid ⊢
    exact absurd hid h

theorem mem_revokeAllUserSessions_eq_zero (db : List SessionRow) (uid : String)
    (r : SessionRow) (hr : r ∈ revokeAllUserSessions db uid) (huid : r.userId = uid) :
    r.isActive = 0 := by
  simp only [revokeAllUserSessions, List.mem_map] at hr
  obtain ⟨s, _, rfl⟩ := hr
  by_cases h : s.userId = uid
  · simp [h]
  · rw [if_neg h] at huid ⊢
    exact absurd huid h

theorem mem_touchSession_eq_now (now : Nat) (db : List SessionRow) (sid : String)
    (r : SessionRow) (hr : r ∈ touchSession now db sid) (hid : r.id = sid) :
    r.lastActiveAt = now := by
  simp only [touchSession, List.mem_map] at hr
  obtain ⟨s, _, rfl⟩ := hr
  by_cases h : s.id = sid
  · simp [h]
  · rw [if_neg h] at hid ⊢
    exact absurd hid h

theorem revokeSession_idem (db : List SessionRow) (sid : String) :
    revokeSession (revokeSession db sid) sid = revokeSession db sid := by
  simp only [revokeSession, List.map_map]
  congr 1
  funext r
  simp only [Function.comp_apply]
  by_cases h : r.id = sid <;> simp [h]

/-- Example row: active session of user `u1`, expiring at time 100. -/
def exRowLive : SessionRow :=
  { id := "s1", userId := "u1", tokenHash := "t1", ipAddress := none, userAgent := none,
    createdAt := 0, expiresAt := 100, lastActiveAt := 1, isActive := 1 }

/-- Example row: still flagged active, but its expiry (time 3) is in the
past for any `now > 3`. -/
def exRowExpired : SessionRow := { exRowLive with expiresAt := 3 }

/-- Example row: already revoked. -/
def exRowInactive : SessionRow := { exRowLive with isActive := 0 }

/-! ## C10: cleanupExpiredSessions always returns 0 -/

/-- C10: `cleanupExpiredSessions` always returns 0 regardless of how many
session rows its bulk update flips inactive — the update deactivates every
expired still-active row, yet the returned count is the literal 0. -/
theorem cleanupExpiredSessions_returns_zero (now : Nat) (db : List SessionRow) :
    (cleanupExpiredSessions now db).1 = 0 ∧
    (cleanupExpiredSessions now db).2 =
      db.map (fun r =>
        if r.expiresAt < now ∧ r.isActive = 1 then { r with isActive := 0 } else r) ∧
    ∀ r ∈ (cleanupExpiredSessions now db).2, r.expiresAt < now → r.isActive ≠ 1 := by
  refine ⟨rfl, rfl, ?_⟩
  rintro r hr hexp hact
  simp only [cleanupExpiredSessions, List.mem_map] at hr
  obtain ⟨s, _, rfl⟩ := hr
  by_cases h : s.expiresAt < now ∧ s.isActive = 1
  · rw [if_pos h] at hact
    simp at hact
  · rw [if_neg h] at hexp hact
    exact h ⟨hexp, hact⟩

/-- Witness for C10 at a concrete table: the count is 0 while the expired
row got flipped. -/
theorem cleanupExpiredSessions_returns_zero_witness :
    (cleanupExpiredSessions 10 [exRowExpired]).1 = 0 ∧
    ({ exRowExpired with isActive := 0 } : SessionRow).isActive ≠ 1 :=
  ⟨(cleanupExpiredSessions_returns_zero 10 [exRowExpired]).1,
   (cleanupExpiredSessions_returns_zero 10 [exRowExpired]).2.2
     { exRowExpired with isActive := 0 } (by decide) (by decide)⟩

/-! ## C8: validateSession writes nothing when no active row exists -/

/-- C8: when no row for the id is flagged active, `validateSession` returns
false and leaves the table exactly as it was; and in general the resulting
table is one of: unchanged, the lazy-expiry revoke, or the
`last_active_at` touch. -/
theorem validateSession_frame_no_active_row (now : Nat) (db : List SessionRow)
    (sid : String) :
    ((∀ r ∈ db, r.id = sid → r.isActive ≠ 1) →
      validateSession now db sid = (false, db)) ∧
    ((validateSession now db sid).2 = db ∨
      (validateSession now db sid).2 = revokeSession db sid ∨
      (validateSession now db sid).2 = touchSession now db sid) := by
  constructor
  · intro h
    rw [validateSession, getSession_eq_none db sid h]
  · cases hgs : getSession db sid with
    | none => simp [validateSession, hgs]
    | some s =>
      by_cases hexp : s.expiresAt < now
      · simp [validateSession, hgs, hexp]
      · simp [validateSession, hgs, hexp]

/-- Witness for C8: validating an absent id and an already-revoked id both
leave a concrete table untouched. -/
theorem validateSession_frame_no_active_row_witness :
    validateSession 5 [exRowInactive] "s1" = (false, [exRowInactive]) ∧
    validateSession 5 [exRowLive] "nosuch" = (false, [exRowLive]) :=
  ⟨(validateSession_frame_no_active_row 5 [exRowInactive] "s1").1 (by decide),
   (validateSession_frame_no_active_row 5 [exRowLive] "nosuch").1 (by decide)⟩

/-! ## C7 and C9: the middleware -/

/-- C7: a protected path with no transport token redirects to `/login`
carrying the original path as the `redirect` parameter, and a path in
neither the protected nor the auth set passes through untouched. -/
theorem middleware_protected_and_outside (verifyToken : String → Option JWTPayload)
    (pathname : String) (token : Option String) :
    (protectedPaths.any (fun p => pathname.startsWith p) = true → token = none →
      middleware verifyToken pathname token =
        MwResponse.redirect "/login" (some pathname) false) ∧
    (protectedPaths.any (fun p => pathname.startsWith p) = false →
      authPaths.any (fun p => pathname.startsWith p) = false →
      middleware verifyToken pathname token = MwResponse.next false) := by
  constructor
  · rintro hprot rfl
    simp [middleware, hprot]
  · intro h1 h2
    simp [middleware, h1, h2]

unseal String.substrEq.loop in
/-- Witness for C7 at concrete paths. -/
theorem middleware_protected_and_outside_witness :
    middleware (fun _ => none) "/dashboard/settings" none =
      MwResponse.redirect "/login" (some "/dashboard/settings") false ∧
    middleware (fun _ => none) "/about" (some "tok") = MwResponse.next false :=
  ⟨(middleware_protected_and_outside (fun _ => none) "/dashboard/settings" none).1
      (by decide) rfl,
   (middleware_protected_and_outside (fun _ => none) "/about" (some "tok")).2
      (by decide) (by decide)⟩

/-- C9: on a protected path, a token that fails verification yields a
redirect to `/login` that deletes the auth cookie and carries no
return-to parameter. -/
theorem middleware_invalid_token_redirect (verifyToken : String → Option JWTPayload)
    (pathname : String) (t : String)
    (hprot : protectedPaths.any (fun p => pathname.startsWith p) = true)
    (hver : verifyToken t = none) :
    middleware verifyToken pathname (some t) = MwResponse.redirect "/login" none true := by
  simp [middleware, hprot, hver]

unseal String.substrEq.loop in
/-- Witness for C9 at a concrete path and failing verifier. -/
theorem middleware_invalid_token_redirect_witness :
    middleware (fun _ => none) "/dashboard" (some "bad") =
      MwResponse.redirect "/login" none true :=
  middleware_invalid_token_redirect (fun _ => none) "/dashboard" "bad" (by decide) rfl

/-! ## C6: revocation and logout are idempotent -/

/-- Example token verifier: accepts exactly the token `"tok"`, which names
session `s1` of user `u1`. -/
def exVerifyTok : String → Option JWTPayload :=
  fun t => if t = "tok" then some ⟨"s1", "u1", "alice@x.com"⟩ else none

/-- C6: `revokeSession` is idempotent and total — a second revoke of the
same id (even an absent or already-inactive one) produces the same table,
with every row of that id inactive; and the logout handler called twice
with the same token answers 200 both times, the second call changing
nothing, with the token's session inactive after each call. -/
theorem revoke_and_logout_idempotent :
    (∀ (db : List SessionRow) (sid : String),
      revokeSession (revokeSession db sid) sid = revokeSession db sid) ∧
    (∀ (db : List SessionRow) (sid : String) (r : SessionRow),
      r ∈ revokeSession db sid → r.id = sid → r.isActive = 0) ∧
    (∀ (verifyToken : String → Option JWTPayload) (token : Option String)
      (db : List SessionRow),
      (logoutPOST verifyToken token db).1.status = 200 ∧
      (logoutPOST verifyToken token ((logoutPOST verifyToken token db).2)).1.status = 200 ∧
      (logoutPOST verifyToken token ((logoutPOST verifyToken token db).2)).2 =
        (logoutPOST verifyToken token db).2) ∧
    (∀ (verifyToken : String → Option JWTPayload) (t : String) (p : JWTPayload)
      (db : List SessionRow) (r : SessionRow), verifyToken t = some p →
      r ∈ (logoutPOST verifyToken (some t) db).2 → r.id = p.sessionId →
      r.isActive = 0) := by
  refine ⟨revokeSession_idem, mem_revokeSession_eq_zero, ?_, ?_⟩
  · intro verifyToken token db
    refine ⟨rfl, rfl, ?_⟩
    cases token with
    | none => rfl
    | some t =>
      cases hv : verifyToken t with
      | none => simp [logoutPOST, hv]
      | some p => simp [logoutPOST, hv, revokeSession_idem]
  · intro verifyToken t p db r hv hr hid
    rw [logoutPOST] at hr
    simp only [hv] at hr
    exact mem_revokeSession_eq_zero db p.sessionId r hr hid

/-- Witness for C6: double revoke and double logout on a concrete table,
with the revoked row inactive. -/
theorem revoke_and_logout_idempotent_witness :
    revokeSession (revokeSession [exRowLive] "s1") "s1" = revokeSession [exRowLive] "s1" ∧
    (logoutPOST exVerifyTok (some "tok") [exRowLive]).1.status = 200 ∧
    ({ exRowLive with isActive := 0 } : SessionRow).isActive = 0 :=
  ⟨revoke_and_logout_idempotent.1 [exRowLive] "s1",
   (revoke_and_logout_idempotent.2.2.1 exVerifyTok (some "tok") [exRowLive]).1,
   revoke_and_logout_idempotent.2.2.2 exVerifyTok "tok" ⟨"s1", "u1", "alice@x.com"⟩
     [exRowLive] { exRowLive with isActive := 0 } (by decide) (by decide) (by decide)⟩

/-! ## C5: the logout-all handler -/

/-- C5 counterexample: a request carrying a malformed token (one the
verifier rejects) is answered with status 500, not the claimed 401. -/
theorem logoutAll_invalid_token_counterexample :
    (logoutAllPOST (fun _ => none) (some "malformed") []).1.status = 500 ∧
    (logoutAllPOST (fun _ => none) (some "malformed") []).1.status ≠ 401 := by
  exact ⟨rfl, by decide⟩

/-- C5 amended: token absent → 401 `Not authenticated` with the table
unchanged; token present but failing verification → 500 with the table
unchanged; valid token → 200 with `is_active = 0` on every session row
owned by the token's user id. -/
theorem logoutAll_spec_amended (verifyToken : String → Option JWTPayload)
    (token : Option String) (db : List SessionRow) :
    (token = none →
      logoutAllPOST verifyToken token db =
        (⟨401, jsonError "Not authenticated", false⟩, db)) ∧
    (∀ t, token = some t → verifyToken t = none →
      (logoutAllPOST verifyToken token db).1.status = 500 ∧
      (logoutAllPOST verifyToken token db).2 = db) ∧
    (∀ t p, token = some t → verifyToken t = some p →
      (logoutAllPOST verifyToken token db).1.status = 200 ∧
      (logoutAllPOST verifyToken token db).2 = revokeAllUserSessions db p.userId ∧
      ∀ r ∈ (logoutAllPOST verifyToken token db).2, r.userId = p.userId →
        r.isActive = 0) := by
  refine ⟨?_, ?_, ?_⟩
  · rintro rfl
    rfl
  · rintro t rfl hv
    simp [logoutAllPOST, hv]
  · rintro t p rfl hv
    refine ⟨by simp [logoutAllPOST, hv], by simp [logoutAllPOST, hv], ?_⟩
    intro r hr huid
    rw [logoutAllPOST] at hr
    simp only [hv] at hr
    exact mem_revokeAllUserSessions_eq_zero db p.userId r hr huid

/-- Witness for C5's amended statement on concrete requests: the three
branches at a concrete verifier and table. -/
theorem logoutAll_spec_amended_witness :
    logoutAllPOST exVerifyTok none [exRowLive] =
      (⟨401, jsonError "Not authenticated", false⟩, [exRowLive]) ∧
    (logoutAllPOST exVerifyTok (some "bad") [exRowLive]).1.status = 500 ∧
    (logoutAllPOST exVerifyTok (some "tok") [exRowLive]).1.status = 200 :=
  ⟨(logoutAll_spec_amended exVerifyTok none [exRowLive]).1 rfl,
   ((logoutAll_spec_amended exVerifyTok (some "bad") [exRowLive]).2.1 "bad" rfl
      (by decide)).1,
   ((logoutAll_spec_amended exVerifyTok (some "tok") [exRowLive]).2.2 "tok"
      ⟨"s1", "u1", "alice@x.com"⟩ rfl (by decide)).1⟩

/-! ## C2: login failure indistinguishability -/

/-- Example users table: one active user. -/
def exUsers : List UserRow :=
  [{ id := "u1", email := "alice@x.com", password_hash := "h1", full_name := "Alice",
     is_active := 1, last_login_at := none }]

/-- Example bcrypt oracle: only the password `"right"` matches hash `"h1"`. -/
def exVerifyPw : String → String → Bool :=
  fun p h => p = "right" ∧ h = "h1"

unseal String.mapAux in
/-- C2 counterexample: a request whose email matches no user row can still
be answered 400 (empty password field) rather than the claimed uniform 401,
with a different body than the wrong-password response. -/
theorem login_indistinguishability_counterexample :
    findUserByEmail exUsers ("nobody@x.com".toLower) = none ∧
    (loginPOST exVerifyPw 0 "sid" "th" none none exUsers [] "nobody@x.com" "").1.status
      = 400 ∧
    (loginPOST exVerifyPw 0 "sid" "th" none none exUsers [] "alice@x.com" "wrong").1.status
      = 401 ∧
    (loginPOST exVerifyPw 0 "sid" "th" none none exUsers [] "nobody@x.com" "").1.body ≠
      (loginPOST exVerifyPw 0 "sid" "th" none none exUsers [] "alice@x.com" "wrong").1.body
    := by
  refine ⟨by decide, by decide, by decide, by decide⟩

/-- C2 amended: restricted to requests that pass the handler's input
validation (nonempty email and password), the unknown-email failure and the
wrong-password failure for an active user produce equal responses — the
same 401 status and byte-identical bodies. -/
theorem login_indistinguishability_amended
    (verifyPassword : String → String → Bool) (now : Nat)
    (sid th : String) (ip ua : Option String)
    (users : List UserRow) (sessions : List SessionRow)
    (e1 p1 e2 p2 : String) (u : UserRow)
    (he1 : e1 ≠ "") (hp1 : p1 ≠ "")
    (hnone : findUserByEmail users e1.toLower = none)
    (he2 : e2 ≠ "") (hp2 : p2 ≠ "")
    (hsome : findUserByEmail users e2.toLower = some u)
    (hactive : u.is_active ≠ 0)
    (hpw : verifyPassword p2 u.password_hash = false) :
    (loginPOST verifyPassword now sid th ip ua users sessions e1 p1).1 =
      (loginPOST verifyPassword now sid th ip ua users sessions e2 p2).1 ∧
    (loginPOST verifyPassword now sid th ip ua users sessions e1 p1).1.status = 401 := by
  have h1 : (loginPOST verifyPassword now sid th ip ua users sessions e1 p1).1 =
      ⟨401, jsonError "Invalid email or password"⟩ := by
    rw [loginPOST, if_neg (by simp [he1, hp1]), hnone]
  have h2 : (loginPOST verifyPassword now sid th ip ua users sessions e2 p2).1 =
      ⟨401, jsonError "Invalid email or password"⟩ := by
    rw [loginPOST, if_neg (by simp [he2, hp2]), hsome]
    simp [hactive, hpw]
  rw [h1, h2]
  exact ⟨rfl, rfl⟩

unseal String.mapAux in
/-- Witness for C2's amended statement at concrete requests against the
example users table. -/
theorem login_indistinguishability_amended_witness :
    (loginPOST exVerifyPw 0 "sid" "th" none none exUsers [] "nobody@x.com" "pw").1 =
      (loginPOST exVerifyPw 0 "sid" "th" none none exUsers [] "alice@x.com" "wrong").1 ∧
    (loginPOST exVerifyPw 0 "sid" "th" none none exUsers [] "nobody@x.com" "pw").1.status
      = 401 :=
  login_indistinguishability_amended exVerifyPw 0 "sid" "th" none none exUsers []
    "nobody@x.com" "pw" "alice@x.com" "wrong"
    { id := "u1", email := "alice@x.com", password_hash := "h1", full_name := "Alice",
      is_active := 1, last_login_at := none }
    (by decide) (by decide) (by decide) (by decide) (by decide) (by decide)
    (by decide) (by decide)

/-! ## C3: validateSession semantics -/

/-- C3: under the PRIMARY KEY invariant, `validateSession` returns false
when no active non-expired row exists; on an active row whose expiry has
passed it flips the row inactive (lazy expiry) and returns false; on an
active non-expired row it sets the row's `last_active_at` to the current
time and returns true. -/
theorem validateSession_spec (now : Nat) (db : List SessionRow) (sid : String)
    (hnodup : NodupIds db) :
    ((¬ ∃ r ∈ db, r.id = sid ∧ r.isActive = 1 ∧ ¬ r.expiresAt < now) →
      (validateSession now db sid).1 = false) ∧
    (∀ r ∈ db, r.id = sid → r.isActive = 1 → r.expiresAt < now →
      validateSession now db sid = (false, revokeSession db sid) ∧
      ∀ s ∈ (validateSession now db sid).2, s.id = sid → s.isActive = 0) ∧
    (∀ r ∈ db, r.id = sid → r.isActive = 1 → ¬ r.expiresAt < now →
      validateSession now db sid = (true, touchSession now db sid) ∧
      ∀ s ∈ (validateSession now db sid).2, s.id = sid → s.lastActiveAt = now) := by
  refine ⟨?_, ?_, ?_⟩
  · intro hno
    push_neg at hno
    cases hgs : getSession db sid with
    | none => simp [validateSession, hgs]
    | some s =>
      have hmem := List.mem_of_find?_eq_some hgs
      have hps := List.find?_some hgs
      simp only [Bool.and_eq_true, beq_iff_eq] at hps
      have hexp : s.expiresAt < now := hno s hmem hps.1 hps.2
      simp [validateSession, hgs, hexp]
  · intro r hr hid hact hexp
    have hgs : getSession db sid = some r := getSession_eq_some_unique db sid r hnodup hr hid hact
    have heq : validateSession now db sid = (false, revokeSession db sid) := by
      simp [validateSession, hgs, hexp]
    refine ⟨heq, ?_⟩
    rw [heq]
    exact fun s hs hsid => mem_revokeSession_eq_zero db sid s hs hsid
  · intro r hr hid hact hexp
    have hgs : getSession db sid = some r := getSession_eq_some_unique db sid r hnodup hr hid hact
    have heq : validateSession now db sid = (true, touchSession now db sid) := by
      simp [validateSession, hgs, hexp]
    refine ⟨heq, ?_⟩
    rw [heq]
    exact fun s hs hsid => mem_touchSession_eq_now now db sid s hs hsid

/-- Witness for C3 on concrete tables: lazy expiry of an expired row and
the `last_active_at` touch on a live one. -/
theorem validateSession_spec_witness :
    validateSession 10 [exRowExpired] "s1" = (false, revokeSession [exRowExpired] "s1") ∧
    validateSession 10 [exRowLive] "s1" = (true, touchSession 10 [exRowLive] "s1") :=
  ⟨((validateSession_spec 10 [exRowExpired] "s1" (by simp [NodupIds])).2.1 exRowExpired
      (by decide) (by decide) (by decide) (by decide)).1,
   ((validateSession_spec 10 [exRowLive] "s1" (by simp [NodupIds])).2.2 exRowLive
      (by decide) (by decide) (by decide) (by decide)).1⟩

/-! ## C4: session listing -/

/-- C4 counterexample: an expired but not-yet-lazily-revoked session (still
flagged active) is returned by the listing, contrary to the claimed
exclusion of expired sessions. -/
theorem getUserSessions_includes_expired_counterexample :
    exRowExpired.isActive = 1 ∧ exRowExpired.expiresAt < 10 ∧
    getUserSessions [exRowExpired] "u1" = [exRowExpired] := by
  refine ⟨rfl, by decide, ?_⟩
  have hfil : ([exRowExpired].filter (fun r => r.userId == "u1" && r.isActive == 1)) =
      [exRowExpired] := by decide
  rw [getUserSessions, hfil, List.mergeSort_singleton]

/-- C4 amended: the listing returns exactly the rows of the user that are
flagged active — including rows whose expiry time has already passed but
that have not yet been lazily flipped — ordered by `last_active_at`
descending, and it mutates no session row. -/
theorem getUserSessions_spec_amended (db : List SessionRow) (uid : String) :
    (getUserSessions db uid).Perm
      (db.filter (fun r => r.userId == uid && r.isActive == 1)) ∧
    List.Pairwise (fun a b => b.lastActiveAt ≤ a.lastActiveAt) (getUserSessions db uid) ∧
    (∀ r, r ∈ getUserSessions db uid ↔ r ∈ db ∧ r.userId = uid ∧ r.isActive = 1) ∧
    (∀ now, applyOp now db (Op.listForUser uid) = db) := by
  refine ⟨List.mergeSort_perm _ _, ?_, ?_, fun _ => rfl⟩
  · rw [getUserSessions]
    refine (List.sorted_mergeSort ?_ ?_
      (db.filter (fun r => r.userId == uid && r.isActive == 1))).imp ?_
    · intro a b c hab hbc
      simp only [decide_eq_true_eq] at hab hbc ⊢
      omega
    · intro a b
      simp only [Bool.or_eq_true, decide_eq_true_eq]
      omega
    · intro a b hab
      simpa using hab
  · intro r
    rw [getUserSessions]
    simp [List.mem_filter]

/-- Witness for C4's amended statement at a concrete table: the expired
row of `u1` is listed, the row of another user is not. -/
theorem getUserSessions_spec_amended_witness :
    (exRowExpired ∈ getUserSessions [exRowExpired] "u1" ↔
      exRowExpired ∈ [exRowExpired] ∧ exRowExpired.userId = "u1" ∧
        exRowExpired.isActive = 1) ∧
    applyOp 10 [exRowExpired] (Op.listForUser "u1") = [exRowExpired] :=
  ⟨(getUserSessions_spec_amended [exRowExpired] "u1").2.2.1 exRowExpired,
   (getUserSessions_spec_amended [exRowExpired] "u1").2.2.2 10⟩

/-! ## C1: liveness is monotonically decreasing -/

theorem sessionDead_mono (t tEnd : Nat) (db : List SessionRow) (sid : String)
    (hle : t ≤ tEnd) (hd : sessionDead t db sid) : sessionDead tEnd db sid := by
  obtain ⟨r, hr, hid, hdead⟩ := hd
  refine ⟨r, hr, hid, ?_⟩
  rcases hdead with h | h
  · exact Or.inl h
  · exact Or.inr (Nat.lt_of_lt_of_le h hle)

/-- Deadness survives any per-row rewrite that keeps the id and the expiry
and never turns `is_active` from 0 into anything else. -/
theorem sessionDead_map (now : Nat) (db : List SessionRow) (sid : String)
    (f : SessionRow → SessionRow)
    (hid : ∀ r, (f r).id = r.id)
    (hact : ∀ r, (f r).isActive = r.isActive ∨ (f r).isActive = 0)
    (hexp : ∀ r, (f r).expiresAt = r.expiresAt)
    (hd : sessionDead now db sid) : sessionDead now (db.map f) sid := by
  obtain ⟨r, hr, hids, hdead⟩ := hd
  refine ⟨f r, List.mem_map_of_mem f hr, (hid r).trans hids, ?_⟩
  rcases hact r with h | h
  · rcases hdead with hd0 | hd0
    · exact Or.inl (h.trans hd0)
    · exact Or.inr ((hexp r) ▸ hd0)
  · exact Or.inl h

theorem sessionDead_revokeSession (now : Nat) (db : List SessionRow) (sid sid2 : String)
    (hd : sessionDead now db sid) : sessionDead now (revokeSession db sid2) sid := by
  refine sessionDead_map now db sid _ ?_ ?_ ?_ hd <;>
    intro r <;> by_cases h : r.id = sid2 <;> simp [h]

theorem sessionDead_touchSession (t now : Nat) (db : List SessionRow) (sid sid2 : String)
    (hd : sessionDead now db sid) : sessionDead now (touchSession t db sid2) sid := by
  refine sessionDead_map now db sid _ ?_ ?_ ?_ hd <;>
    intro r <;> by_cases h : r.id = sid2 <;> simp [h]

theorem sessionDead_revokeAllUserSessions (now : Nat) (db : List SessionRow)
    (sid uid : String) (hd : sessionDead now db sid) :
    sessionDead now (revokeAllUserSessions db uid) sid := by
  refine sessionDead_map now db sid _ ?_ ?_ ?_ hd <;>
    intro r <;> by_cases h : r.userId = uid <;> simp [h]

theorem sessionDead_cleanup (t now : Nat) (db : List SessionRow) (sid : String)
    (hd : sessionDead now db sid) :
    sessionDead now (cleanupExpiredSessions t db).2 sid := by
  refine sessionDead_map now db sid _ ?_ ?_ ?_ hd <;>
    intro r <;> by_cases h : r.expiresAt < t ∧ r.isActive = 1 <;> simp [h]

/-- A dead session id stays dead across any single store operation run at
any time: no operation ever sets `is_active` back to 1 or moves an expiry,
and an insert on an existing id fails on the PRIMARY KEY. -/
theorem sessionDead_applyOp (t now : Nat) (db : List SessionRow) (sid : String)
    (op : Op) (hd : sessionDead now db sid) :
    sessionDead now (applyOp t db op) sid := by
  cases op with
  | create sid2 uid th ip ua =>
    rw [applyOp, createSession, insertSession]
    split
    · exact hd
    · obtain ⟨r, hr, hids, hdead⟩ := hd
      exact ⟨r, List.mem_append_left _ hr, hids, hdead⟩
  | get sid2 => exact hd
  | validate sid2 =>
    rw [applyOp, validateSession]
    cases hgs : getSession db sid2 with
    | none => exact hd
    | some s =>
      by_cases hexp : s.expiresAt < t
      · simpa [hexp] using sessionDead_revokeSession now db sid sid2 hd
      · simpa [hexp] using sessionDead_touchSession t now db sid sid2 hd
  | revoke sid2 => exact sessionDead_revokeSession now db sid sid2 hd
  | revokeAll uid => exact sessionDead_revokeAllUserSessions now db sid uid hd
  | listForUser uid => exact hd
  | cleanup => exact sessionDead_cleanup t now db sid hd

theorem sessionDead_applyOps (now : Nat) (db : List SessionRow) (sid : String)
    (ops : List (Nat × Op)) (hd : sessionDead now db sid) :
    sessionDead now (applyOps db ops) sid := by
  induction ops generalizing db with
  | nil => exact hd
  | cons p rest ih =>
    obtain ⟨t, op⟩ := p
    exact ih _ (sessionDead_applyOp t now db sid op hd)

theorem nodupIds_map (db : List SessionRow) (f : SessionRow → SessionRow)
    (hid : ∀ r, (f r).id = r.id) (h : NodupIds db) : NodupIds (db.map f) := by
  rw [NodupIds, List.map_map] at *
  have : ((fun r : SessionRow => r.id) ∘ f) = (fun r : SessionRow => r.id) :=
    funext fun r => hid r
  rw [this]
  exact h

theorem nodupIds_applyOp (t : Nat) (db : List SessionRow) (op : Op)
    (h : NodupIds db) : NodupIds (applyOp t db op) := by
  cases op with
  | create sid2 uid th ip ua =>
    rw [applyOp, createSession, insertSession]
    split
    · exact h
    · rename_i hnotdup
      rw [Option.getD_some, NodupIds, List.map_append, List.nodup_append]
      refine ⟨h, ?_, ?_⟩
      · simp
      · intro x hx hx2
        simp only [List.map_cons, List.map_nil, List.mem_singleton] at hx2
        simp only [List.mem_map] at hx
        obtain ⟨r, hr, rfl⟩ := hx
        exact hnotdup (by rw [List.any_eq_true]; exact ⟨r, hr, by simp [hx2]⟩)
  | get sid2 => exact h
  | validate sid2 =>
    rw [applyOp, validateSession]
    cases hgs : getSession db sid2 with
    | none => exact h
    | some s =>
      by_cases hexp : s.expiresAt < t
      · simpa [hexp] using
          nodupIds_map db _ (fun r => by by_cases hr : r.id = sid2 <;> simp [hr]) h
      · simpa [hexp] using
          nodupIds_map db _ (fun r => by by_cases hr : r.id = sid2 <;> simp [hr]) h
  | revoke sid2 =>
    exact nodupIds_map db _ (fun r => by by_cases hr : r.id = sid2 <;> simp [hr]) h
  | revokeAll uid =>
    exact nodupIds_map db _ (fun r => by by_cases hr : r.userId = uid <;> simp [hr]) h
  | listForUser uid => exact h
  | cleanup =>
    exact nodupIds_map db _
      (fun r => by by_cases hr : r.expiresAt < t ∧ r.isActive = 1 <;> simp [hr]) h

theorem nodupIds_applyOps (db : List SessionRow) (ops : List (Nat × Op))
    (h : NodupIds db) : NodupIds (applyOps db ops) := by
  induction ops generalizing db with
  | nil => exact h
  | cons p rest ih =>
    obtain ⟨t, op⟩ := p
    exact ih _ (nodupIds_applyOp t db op h)

/-- A dead session id never validates: under the PRIMARY KEY invariant,
`validateSession` answers `false` for it. -/
theorem validateSession_eq_false_of_dead (now : Nat) (db : List SessionRow)
    (sid : String) (hnodup : NodupIds db) (hd : sessionDead now db sid) :
    (validateSession now db sid).1 = false := by
  obtain ⟨r, hr, hid, hdead⟩ := hd
  cases hgs : getSession db sid with
  | none => simp [validateSession, hgs]
  | some s =>
    have hmem := List.mem_of_find?_eq_some hgs
    have hps := List.find?_some hgs
    simp only [Bool.and_eq_true, beq_iff_eq] at hps
    have hsr : s = r := List.inj_on_of_nodup_map hnodup hmem hr (by rw [hps.1, hid])
    rcases hdead with hact | hexp
    · rw [hsr] at hps
      rw [hact] at hps
      exact absurd hps.2 (by decide)
    · have : s.expiresAt < now := hsr ▸ hexp
      simp [validateSession, hgs, this]

/-- C1: once a session id is dead — its row flagged inactive or past its
expiry — no sequence of store operations (creates, reads, validations,
revocations, listings, cleanups at arbitrary times) ever makes it validate
as live again at any later time. -/
theorem session_liveness_monotone (db : List SessionRow) (sid : String)
    (t tEnd : Nat) (ops : List (Nat × Op))
    (hnodup : NodupIds db) (hdead : sessionDead t db sid) (hle : t ≤ tEnd) :
    (validateSession tEnd (applyOps db ops) sid).1 = false :=
  validateSession_eq_false_of_dead tEnd (applyOps db ops) sid
    (nodupIds_applyOps db ops hnodup)
    (sessionDead_applyOps tEnd db sid ops (sessionDead_mono t tEnd db sid hle hdead))

/-- Witness for C1: a concretely expired session stays invalid across a
revoke of another id, a fresh insert, and a cleanup. -/
theorem session_liveness_monotone_witness :
    (validateSession 50
      (applyOps [exRowExpired]
        [(20, Op.revoke "s2"), (30, Op.create "s9" "u2" "t9" none none), (40, Op.cleanup)])
      "s1").1 = false :=
  session_liveness_monotone [exRowExpired] "s1" 10 50
    [(20, Op.revoke "s2"), (30, Op.create "s9" "u2" "t9" none none), (40, Op.cleanup)]
    (by simp [NodupIds]) ⟨exRowExpired, by simp, rfl, Or.inr (by decide)⟩ (by decide)

end QuizAuth
